import Mathlib

/-!
Verification of the solver-lnk build-order scheduler.

This file gives a shallow embedding of the repository's data model
(`solver_lnk/models/__init__.py`) and of the greedy discrete-event scheduler
(`solver_lnk/solvers/greedy_solver.py`), and proves or refutes the frozen
claims about them.  Python floats are modelled as exact rationals, Python
dicts over the finite `ResourceType` / `BuildingType` enums as total
functions (the greedy solver constructs all of its per-resource dicts with
every key present), and dicts whose key-absence is observable
(`GameState.resources`, cost dicts in `GameState.can_afford`) as
`Option`-valued functions / association lists.  The unbounded `while` loop
of `GreedySolver.solve` is modelled with a fuel parameter; on fuel
exhaustion the current simulation state is returned, so every invariant
proved for all fuel values is an invariant of every state the Python loop
can reach.
-/

attribute [local semireducible] Rat.add Rat.mul Rat.sub Rat.inv

namespace SolverLnk

/-- The four resource kinds (`ResourceType` in `models/__init__.py`). -/
inductive ResourceType where
  | wood
  | stone
  | iron
  | food
deriving DecidableEq, Repr

/-- Building kinds (`BuildingType`); the Python `MINE` member is an alias of
`ORE_MINE` (same enum value), so it collapses to one constructor. -/
inductive BuildingType where
  | lumberjack
  | quarry
  | ore_mine
  | farm
  | wood_store
  | stone_store
  | ore_store
  | keep
  | castle
  | arsenal
  | tavern
  | library
  | market
  | fortifications
deriving DecidableEq, Repr

/-- One level of a building (`BuildingLevel`).  Costs are total over the four
resource kinds, as produced by `data_loader.load_buildings_from_json`. -/
structure BuildingLevel where
  level : ℕ
  costs : ResourceType → ℤ
  build_time_seconds : ℕ
  production_rate : Option ℚ
  storage_capacity : Option ℤ

/-- A building with its per-level data (`Building`).  `levels` and
`technology_prerequisites` model the Python dicts via `Option` lookup. -/
structure Building where
  max_level : ℕ
  levels : ℕ → Option BuildingLevel
  technology_prerequisites : ℕ → Option String

/-- A technology (`Technology` in `models/__init__.py`), with the fields the
greedy solver reads. -/
structure Technology where
  name : String
  required_library_level : ℕ
  costs : ResourceType → ℤ
  research_time_seconds : ℕ

/-- A recorded building upgrade (`BuildingUpgradeAction`).  Times are in
seconds; the greedy solver always records whole minutes times 60. -/
structure BuildingUpgradeAction where
  building_type : BuildingType
  from_level : ℕ
  to_level : ℕ
  start_time : ℕ
  end_time : ℕ
  costs : ResourceType → ℤ

/-- A recorded research action (`LibraryResearchAction`). -/
structure LibraryResearchAction where
  from_level : ℕ
  to_level : ℕ
  start_time : ℕ
  end_time : ℕ
  costs : ResourceType → ℤ
  technologies_unlocked : List String

/-- The solver output (`Solution`), with the final state's fields inlined. -/
structure Solution where
  building_actions : List BuildingUpgradeAction
  research_actions : List LibraryResearchAction
  total_time_seconds : ℕ
  final_building_levels : BuildingType → ℕ
  final_resources : ResourceType → ℚ

/-! ### The shared `GameState` model (`models/__init__.py`)

`GameState.resources` is a Python dict whose key-absence is observable in
`can_afford` (`.get(rt, 0)`) and in `spend_resources` (KeyError), so it is
modelled as an `Option`-valued map; cost dicts are association lists. -/

/-- `GameState`, restricted to the fields the claims are about. -/
structure MGameState where
  resources : ResourceType → Option ℚ

/-- `GameState.can_afford`: `all(resources.get(rt, 0) >= cost ...)`. -/
def MGameState.can_afford (s : MGameState) (costs : List (ResourceType × ℤ)) : Bool :=
  costs.all fun p => decide (((p.2 : ℚ)) ≤ (s.resources p.1).getD 0)

/-- `GameState.spend_resources`: `resources[rt] -= cost` for each entry; a
missing key is a KeyError, modelled as `none`. -/
def MGameState.spend_resources : MGameState → List (ResourceType × ℤ) → Option MGameState
  | s, [] => some s
  | s, (r, c) :: rest =>
    match s.resources r with
    | none => none
    | some q =>
        MGameState.spend_resources
          ⟨Function.update s.resources r (some (q - (c : ℚ)))⟩ rest

/-! ### The greedy solver (`solvers/greedy_solver.py`) -/

/-- Queue entry: a `(building, target level)` pair. -/
abbrev QEntry := BuildingType × ℕ

/-- `SimulationState` of the greedy solver.  All per-resource dicts are
constructed total in `solve`, so they are total functions here. -/
structure SimState where
  time_minutes : ℕ
  resources : ResourceType → ℚ
  building_levels : BuildingType → ℕ
  production_rates : ResourceType → ℚ
  storage_caps : ResourceType → ℤ
  building_queue_free_at : ℕ
  research_queue_free_at : ℕ
  completed_actions : List BuildingUpgradeAction
  research_actions : List LibraryResearchAction
  researched_technologies : List String

/-- The immutable inputs of `GreedySolver.__init__`.  `initial_levels` is the
initial `building_levels` dict with its `.get(btype, 1)` default applied
(every read in the solver uses that default). -/
structure GreedyInput where
  buildings : BuildingType → Option Building
  initial_resources : ResourceType → ℚ
  initial_levels : BuildingType → ℕ
  target_levels : BuildingType → Option ℕ
  technologies : String → Option Technology

/-- Iteration order of the four-key resource dicts (Python insertion order:
wood, stone, iron, food). -/
def resourceOrder : List ResourceType :=
  [ResourceType.wood, ResourceType.stone, ResourceType.iron, ResourceType.food]

/-- The producer building for each resource (`production_buildings` map in
`_calculate_production_rates`). -/
def producerOf : ResourceType → BuildingType
  | ResourceType.wood => BuildingType.lumberjack
  | ResourceType.stone => BuildingType.quarry
  | ResourceType.iron => BuildingType.ore_mine
  | ResourceType.food => BuildingType.farm

/-- The storage building for each resource (`storage_buildings` /
`storage_map`; the farm provides food capacity). -/
def storeOf : ResourceType → BuildingType
  | ResourceType.wood => BuildingType.wood_store
  | ResourceType.stone => BuildingType.stone_store
  | ResourceType.iron => BuildingType.ore_store
  | ResourceType.food => BuildingType.farm

/-- Default storage capacities in `_calculate_storage_capacities`
(999999 for wood/stone/iron, 40 for food). -/
def defaultCap : ResourceType → ℤ
  | ResourceType.food => 40
  | _ => 999999

/-- `GreedySolver._calculate_production_rates`: each resource's rate is its
producer's current-level `production_rate` (0 when absent). -/
def calcProductionRates (inp : GreedyInput) (lv : BuildingType → ℕ)
    (r : ResourceType) : ℚ :=
  match inp.buildings (producerOf r) with
  | none => 0
  | some b =>
    match b.levels (lv (producerOf r)) with
    | none => 0
    | some ld => ld.production_rate.getD 0

/-- `GreedySolver._calculate_storage_capacities`. -/
def calcStorageCaps (inp : GreedyInput) (lv : BuildingType → ℕ)
    (r : ResourceType) : ℤ :=
  match inp.buildings (storeOf r) with
  | none => defaultCap r
  | some b =>
    match b.levels (lv (storeOf r)) with
    | none => defaultCap r
    | some ld => ld.storage_capacity.getD (defaultCap r)

/-- `GreedySolver._advance_time`: advance `minutes`, add
`rate * minutes/60` to each resource, clamp at the storage cap. -/
def advanceTime (s : SimState) (minutes : ℕ) : SimState :=
  { s with
    time_minutes := s.time_minutes + minutes
    resources := fun r =>
      min (s.resources r + s.production_rates r * (minutes : ℚ) / 60)
        ((s.storage_caps r : ℚ)) }

/-- `GreedySolver._check_technology_prerequisite`. -/
def checkTechPrereq (s : SimState) (b : Building) (to_level : ℕ) : Option String :=
  match b.technology_prerequisites to_level with
  | none => none
  | some t => if t ∈ s.researched_technologies then none else some t

/-- Inner loop of `_can_afford_or_wait_time` over the cost dict's entries,
accumulating the maximal wait in minutes.  `int(hours * 60) + 1` is
`⌊shortfall / rate * 60⌋ + 1` (the operand is positive, so `int` truncation
is the floor). -/
def affordGo (s : SimState) (costs : ResourceType → ℤ) :
    List ResourceType → ℕ → Bool × ℤ
  | [], maxWait => if 0 < maxWait then (false, (maxWait : ℤ)) else (true, 0)
  | r :: rest, maxWait =>
    if (costs r : ℚ) ≤ s.resources r then affordGo s costs rest maxWait
    else
      if s.production_rates r ≤ 0 then (false, -1)
      else
        let minutesNeeded :=
          (Rat.floor (((costs r : ℚ) - s.resources r) / s.production_rates r * 60)).toNat + 1
        affordGo s costs rest (max maxWait minutesNeeded)

/-- `GreedySolver._can_afford_or_wait_time`: `(True, 0)`, `(False, wait)` or
the unresolvable marker `(False, -1)`. -/
def canAffordOrWaitTime (s : SimState) (costs : ResourceType → ℤ) : Bool × ℤ :=
  affordGo s costs resourceOrder 0

/-- The `for level in range(current+1, 31)` search in
`_check_storage_capacity`: first level whose `storage_capacity` covers the
cost. -/
def capSearch (b : Building) (cost : ℤ) : List ℕ → Option ℕ
  | [] => none
  | l :: rest =>
    match b.levels l with
    | none => capSearch b cost rest
    | some ld =>
      match ld.storage_capacity with
      | none => capSearch b cost rest
      | some cap => if cost ≤ cap then some l else capSearch b cost rest

/-- Levels `current+1 .. 30` searched for sufficient capacity. -/
def findCapacityLevel (b : Building) (current : ℕ) (cost : ℤ) : Option ℕ :=
  capSearch b cost (List.range' (current + 1) (30 - current))

/-- Inner loop of `_check_storage_capacity` over the cost dict's entries.
Food compares the current food quantity against the cost; other kinds
compare the cost against the storage cap. -/
def goStorage (inp : GreedyInput) (s : SimState) (costs : ResourceType → ℤ) :
    List ResourceType → Bool × Option QEntry
  | [] => (true, none)
  | r :: rest =>
    if r = ResourceType.food then
      if s.resources ResourceType.food < (costs ResourceType.food : ℚ) then
        match inp.buildings BuildingType.farm with
        | none => goStorage inp s costs rest
        | some b =>
          match findCapacityLevel b (s.building_levels BuildingType.farm)
              (costs ResourceType.food) with
          | some lvl => (false, some (BuildingType.farm, lvl))
          | none => (false, none)
      else goStorage inp s costs rest
    else
      if s.storage_caps r < costs r then
        match inp.buildings (storeOf r) with
        | none => goStorage inp s costs rest
        | some b =>
          match findCapacityLevel b (s.building_levels (storeOf r)) (costs r) with
          | some lvl => (false, some (storeOf r, lvl))
          | none => (false, none)
      else goStorage inp s costs rest

/-- `GreedySolver._check_storage_capacity`. -/
def checkStorageCapacity (inp : GreedyInput) (s : SimState)
    (costs : ResourceType → ℤ) : Bool × Option QEntry :=
  goStorage inp s costs resourceOrder

/-- `_select_next_upgrade`'s storage fast-path set. -/
def storageFastTypes : List BuildingType :=
  [BuildingType.wood_store, BuildingType.stone_store, BuildingType.ore_store,
   BuildingType.farm]

/-- The `for idx, (btype, target_level) in enumerate(upgrade_queue)` scan of
`_select_next_upgrade`: first entry still below its target, with its index. -/
def findFirstValid (s : SimState) :
    List QEntry → ℕ → Option (BuildingType × ℕ × ℕ)
  | [], _ => none
  | (b, t) :: rest, i =>
    if s.building_levels b < t then some (b, t, i)
    else findFirstValid s rest (i + 1)

/-- `GreedySolver._select_next_upgrade`. -/
def selectNextUpgrade (s : SimState) (queue : List QEntry) :
    Option (BuildingType × ℕ × ℕ) :=
  match queue with
  | [] => none
  | (fb, ft) :: _ =>
    if fb ∈ storageFastTypes ∧ s.building_levels fb < ft then some (fb, ft, 0)
    else findFirstValid s queue 0

/-- The `prod_building_types` list in `solve`. -/
def prodBuildingTypes : List BuildingType :=
  [BuildingType.lumberjack, BuildingType.quarry, BuildingType.ore_mine,
   BuildingType.farm]

/-- The `resource_map` in `solve`'s production-rate update. -/
def resourceOfProd : BuildingType → Option ResourceType
  | BuildingType.lumberjack => some ResourceType.wood
  | BuildingType.quarry => some ResourceType.stone
  | BuildingType.ore_mine => some ResourceType.iron
  | BuildingType.farm => some ResourceType.food
  | _ => none

/-- The `storage_types` list in `solve`. -/
def storageBuildingTypes : List BuildingType :=
  [BuildingType.wood_store, BuildingType.stone_store, BuildingType.ore_store,
   BuildingType.farm]

/-- The `storage_map` in `solve`'s storage-capacity update. -/
def resourceOfStore : BuildingType → Option ResourceType
  | BuildingType.wood_store => some ResourceType.wood
  | BuildingType.stone_store => some ResourceType.stone
  | BuildingType.ore_store => some ResourceType.iron
  | BuildingType.farm => some ResourceType.food
  | _ => none

/-- New production rate installed by `solve` after an upgrade completes
(`if new_level_data and new_level_data.production_rate:` — Python truthiness,
so a rate of 0 is skipped). -/
def newProductionRate (building : Building) (btype : BuildingType)
    (to_level target_level : ℕ) : Option (ResourceType × ℚ) :=
  if to_level ≤ target_level then
    if btype ∈ prodBuildingTypes then
      match building.levels to_level with
      | none => none
      | some nld =>
        match nld.production_rate with
        | none => none
        | some p =>
          if p = 0 then none
          else (resourceOfProd btype).map fun res => (res, p)
    else none
  else none

/-- Production-rate update step of `solve` (lines 162-184). -/
def updateProductionRates (s : SimState) (building : Building)
    (btype : BuildingType) (to_level target_level : ℕ) : SimState :=
  match newProductionRate building btype to_level target_level with
  | none => s
  | some rp =>
    { s with production_rates := Function.update s.production_rates rp.1 rp.2 }

/-- New storage capacity installed by `solve` after an upgrade completes
(`if new_level_data and new_level_data.storage_capacity:` — truthiness, so a
capacity of 0 is skipped). -/
def newStorageCap (building : Building) (btype : BuildingType)
    (to_level : ℕ) : Option (ResourceType × ℤ) :=
  if btype ∈ storageBuildingTypes then
    match building.levels to_level with
    | none => none
    | some nld =>
      match nld.storage_capacity with
      | none => none
      | some cap =>
        if cap = 0 then none
        else (resourceOfStore btype).map fun res => (res, cap)
  else none

/-- Storage-capacity update step of `solve` (lines 186-209); a farm upgrade
refills food to the new capacity. -/
def updateStorageCaps (s : SimState) (building : Building)
    (btype : BuildingType) (to_level : ℕ) : SimState :=
  match newStorageCap building btype to_level with
  | none => s
  | some rc =>
    { s with
      storage_caps := Function.update s.storage_caps rc.1 rc.2
      resources :=
        if rc.1 = ResourceType.food then
          Function.update s.resources ResourceType.food ((rc.2 : ℤ) : ℚ)
        else s.resources }

/-- The commit phase of a building upgrade in `solve` (lines 145-221):
deduct costs, mark the building queue busy, advance to completion, raise the
level, update production/storage, and append the `BuildingUpgradeAction`. -/
def performUpgrade (s : SimState) (building : Building) (btype : BuildingType)
    (from_level to_level target_level : ℕ) (ld : BuildingLevel) : SimState :=
  let start_time := s.time_minutes
  let duration_minutes := max 1 (ld.build_time_seconds / 60)
  let s1 := advanceTime
    { s with
      resources := fun r => s.resources r - (ld.costs r : ℚ)
      building_queue_free_at := s.time_minutes + duration_minutes }
    duration_minutes
  let s2 := { s1 with
    building_levels := Function.update s1.building_levels btype to_level }
  let s3 := updateStorageCaps
    (updateProductionRates s2 building btype to_level target_level)
    building btype to_level
  { s3 with
    completed_actions := s3.completed_actions ++
      [{ building_type := btype
         from_level := from_level
         to_level := to_level
         start_time := start_time * 60
         end_time := s3.time_minutes * 60
         costs := ld.costs }] }

/-- Waiting for the research queue at the top of `_schedule_research`. -/
def rqAdvance (s : SimState) : SimState :=
  if s.time_minutes < s.research_queue_free_at then
    advanceTime s (s.research_queue_free_at - s.time_minutes)
  else s

/-- The recording tail of `_schedule_research` (lines 316-344): deduct the
technology's costs, mark the research queue busy, append the
`LibraryResearchAction`, and mark the technology researched immediately. -/
def researchRecord (s : SimState) (tech_name : String) (tech : Technology)
    (library_level : ℕ) : SimState :=
  let start_time := s.time_minutes
  let s1 := { s with resources := fun r => s.resources r - (tech.costs r : ℚ) }
  let duration_minutes := max 1 (tech.research_time_seconds / 60)
  let s2 := { s1 with
    research_queue_free_at := s1.time_minutes + duration_minutes }
  { s2 with
    research_actions := s2.research_actions ++
      [{ from_level := library_level
         to_level := library_level
         start_time := start_time * 60
         end_time := (start_time + duration_minutes) * 60
         costs := tech.costs
         technologies_unlocked := [tech_name] }]
    researched_technologies := tech_name :: s2.researched_technologies }

/-- `GreedySolver._schedule_research`, returning the updated state and
queue. -/
def scheduleResearch (inp : GreedyInput) (s : SimState) (tech_name : String)
    (queue : List QEntry) : SimState × List QEntry :=
  match inp.technologies tech_name with
  | none => (s, queue)
  | some tech =>
    let library_level := s.building_levels BuildingType.library
    if library_level < tech.required_library_level then
      (s, (BuildingType.library, tech.required_library_level) :: queue)
    else
      let sw := rqAdvance s
      let chk := checkStorageCapacity inp sw tech.costs
      if chk.1 = false then
        match chk.2 with
        | some need => (sw, need :: queue)
        | none => (sw, queue)
      else
        let afford := canAffordOrWaitTime sw tech.costs
        if afford.1 = false ∧ afford.2 < 0 then (sw, queue)
        else
          let sw2 := if afford.1 = false then advanceTime sw afford.2.toNat else sw
          (researchRecord sw2 tech_name tech library_level, queue)

/-- Waiting for the building queue at the top of the `solve` loop. -/
def topAdvance (s : SimState) : SimState :=
  if s.time_minutes < s.building_queue_free_at then
    advanceTime s (s.building_queue_free_at - s.time_minutes)
  else s

/-- Outcome of one iteration of the `solve` loop. -/
inductive StepRes where
  | stop (s : SimState)
  | next (s : SimState) (queue : List QEntry)

/-- The state carried by a loop outcome. -/
def StepRes.state : StepRes → SimState
  | .stop s => s
  | .next s _ => s

/-- The storage / affordability / commit phase of one `solve` iteration
(lines 126-225), after technology prerequisites have passed. -/
def buildPhase (inp : GreedyInput) (s : SimState) (building : Building)
    (btype : BuildingType) (current_level target_level : ℕ)
    (ld : BuildingLevel) (queue : List QEntry) (idx : ℕ) : StepRes :=
  let chk := checkStorageCapacity inp s ld.costs
  if chk.1 = false then
    match chk.2 with
    | some need => .next s (need :: queue)
    | none => .next s queue
  else
    let afford := canAffordOrWaitTime s ld.costs
    if afford.1 = false ∧ afford.2 < 0 then .next s (queue.eraseIdx idx)
    else
      let s2 := if afford.1 = false then advanceTime s afford.2.toNat else s
      let s3 := performUpgrade s2 building btype current_level
        (current_level + 1) target_level ld
      if target_level ≤ s3.building_levels btype then
        .next s3 (queue.eraseIdx idx)
      else .next s3 queue

/-- One iteration of the `while upgrade_queue:` loop of `GreedySolver.solve`
(lines 81-225), for a nonempty queue. -/
def solveStep (inp : GreedyInput) (s0 : SimState) (queue : List QEntry) :
    StepRes :=
  let s := topAdvance s0
  match selectNextUpgrade s queue with
  | none => .stop s
  | some sel =>
    let btype := sel.1
    let target_level := sel.2.1
    let idx := sel.2.2
    let current_level := s.building_levels btype
    if target_level ≤ current_level then .next s (queue.eraseIdx idx)
    else
      match inp.buildings btype with
      | none => .next s (queue.eraseIdx idx)
      | some building =>
        match building.levels (current_level + 1) with
        | none => .next s (queue.eraseIdx idx)
        | some ld =>
          match checkTechPrereq s building (current_level + 1) with
          | some tech_needed =>
            let p := scheduleResearch inp s tech_needed queue
            .next p.1 p.2
          | none =>
            buildPhase inp s building btype current_level target_level ld
              queue idx

/-- The `solve` loop, with fuel for the unbounded Python `while`. -/
def solveLoop (inp : GreedyInput) : ℕ → SimState → List QEntry → SimState
  | 0, s, _ => s
  | fuel + 1, s, queue =>
    if queue.isEmpty then s
    else
      match solveStep inp s queue with
      | .stop s1 => s1
      | .next s1 q1 => solveLoop inp fuel s1 q1

/-- Entries appended for one level of the interleaved pass in
`_create_prioritized_queue`. -/
def entriesForLevel (targets : BuildingType → Option ℕ)
    (bs : List BuildingType) (level : ℕ) : List QEntry :=
  bs.filterMap fun b =>
    match targets b with
    | some t => if level ≤ t then some (b, level) else none
    | none => none

/-- `max(...)` over the targets of a fixed building list. -/
def maxTargetOf (targets : BuildingType → Option ℕ)
    (bs : List BuildingType) : ℕ :=
  bs.foldl (fun m b => match targets b with | some t => max m t | none => m) 0

/-- Interleaved level-by-level entries (`for level in range(2, max+1)`). -/
def interleaved (targets : BuildingType → Option ℕ) (bs : List BuildingType)
    (maxL : ℕ) : List QEntry :=
  (List.range' 2 (maxL - 1)).foldr
    (fun level acc => entriesForLevel targets bs level ++ acc) []

/-- Sequential entries `(b, 2) .. (b, target)` for one building. -/
def levelsFor (targets : BuildingType → Option ℕ) (b : BuildingType) :
    List QEntry :=
  match targets b with
  | some t => (List.range' 2 (t - 1)).map fun l => (b, l)
  | none => []

/-- The fixed lists of `_create_prioritized_queue`. -/
def resourceBuildingsList : List BuildingType :=
  [BuildingType.lumberjack, BuildingType.quarry, BuildingType.ore_mine]

/-- Storage buildings interleaved in step 2 of the queue construction. -/
def storageBuildingsList : List BuildingType :=
  [BuildingType.wood_store, BuildingType.stone_store, BuildingType.ore_store]

/-- `GreedySolver._create_prioritized_queue`. -/
def createPrioritizedQueue (inp : GreedyInput) : List QEntry :=
  let t := inp.target_levels
  interleaved t resourceBuildingsList (maxTargetOf t resourceBuildingsList) ++
  interleaved t storageBuildingsList (maxTargetOf t storageBuildingsList) ++
  levelsFor t BuildingType.farm ++
  levelsFor t BuildingType.keep ++
  levelsFor t BuildingType.library ++
  levelsFor t BuildingType.arsenal ++
  levelsFor t BuildingType.tavern ++
  levelsFor t BuildingType.market ++
  levelsFor t BuildingType.fortifications

/-- The initial `SimulationState` built at the top of `solve`. -/
def initState (inp : GreedyInput) : SimState :=
  { time_minutes := 0
    resources := inp.initial_resources
    building_levels := inp.initial_levels
    production_rates := calcProductionRates inp inp.initial_levels
    storage_caps := calcStorageCaps inp inp.initial_levels
    building_queue_free_at := 0
    research_queue_free_at := 0
    completed_actions := []
    research_actions := []
    researched_technologies := [] }

/-- `GreedySolver.solve`: run the simulation and package the `Solution`.
The Python method's return type is `Solution | None`, but its body always
returns a `Solution`. -/
def greedySolve (inp : GreedyInput) (fuel : ℕ) : Solution :=
  let s := solveLoop inp fuel (initState inp) (createPrioritizedQueue inp)
  { building_actions := s.completed_actions
    research_actions := s.research_actions
    total_time_seconds := s.time_minutes * 60
    final_building_levels := s.building_levels
    final_resources := s.resources }

/-! ### Derived checkers used to state the claims -/

/-- The technology prerequisite recorded in the catalog for upgrading
building `b` to level `l`. -/
def techPrereqOf (inp : GreedyInput) (b : BuildingType) (l : ℕ) : Option String :=
  (inp.buildings b).bind fun bd => bd.technology_prerequisites l

/-- Decidable check of the technology-gating property of a `Solution`:
every building action whose target level has a technology prerequisite is
preceded (end-to-start) by a research action unlocking that technology. -/
def techGatedB (inp : GreedyInput) (sol : Solution) : Bool :=
  sol.building_actions.all fun a =>
    match techPrereqOf inp a.building_type a.to_level with
    | none => true
    | some t =>
      sol.research_actions.any fun r =>
        r.technologies_unlocked.contains t && decide (r.end_time ≤ a.start_time)

/-- Maximum `end_time` over both action lists of a solution (0 if empty). -/
def maxEndTime (sol : Solution) : ℕ :=
  max (sol.building_actions.foldr (fun a m => max a.end_time m) 0)
    (sol.research_actions.foldr (fun a m => max a.end_time m) 0)

/-- Header projection of a building action (everything but the cost map). -/
def buildProj (a : BuildingUpgradeAction) : BuildingType × ℕ × ℕ × ℕ × ℕ :=
  (a.building_type, a.from_level, a.to_level, a.start_time, a.end_time)

/-- Header projection of a research action. -/
def researchProj (a : LibraryResearchAction) : ℕ × ℕ × ℕ × ℕ × List String :=
  (a.from_level, a.to_level, a.start_time, a.end_time, a.technologies_unlocked)

/-! ### Concrete instances used by counterexamples and witnesses -/

/-- The all-zero cost map. -/
def zeroCosts : ResourceType → ℤ := fun _ => 0

/-- Claim C1's input: upgrading the keep to level 2 requires technology
`techA` (library level 1, zero cost, 6000 s research time); the keep's
level 2 is free and takes 60 s. -/
def keepC1 : Building :=
  { max_level := 30
    levels := fun l =>
      if l = 2 then
        some { level := 2, costs := zeroCosts, build_time_seconds := 60
               production_rate := none, storage_capacity := none }
      else none
    technology_prerequisites := fun l =>
      if l = 2 then some ("techA") else none }

/-- Input for claim C1. -/
def inpC1 : GreedyInput :=
  { buildings := fun b => if b = BuildingType.keep then some keepC1 else none
    initial_resources := fun _ => 0
    initial_levels := fun _ => 1
    target_levels := fun b => if b = BuildingType.keep then some 2 else none
    technologies := fun n =>
      if n = "techA" then
        some { name := "techA", required_library_level := 1
               costs := zeroCosts, research_time_seconds := 6000 }
      else none }

/-- Claim C2's producer: lumberjack producing 10 wood/hour at level 1;
level 2 costs 50 wood and takes 60 s. -/
def lumberjackC2 : Building :=
  { max_level := 30
    levels := fun l =>
      if l = 1 then
        some { level := 1, costs := zeroCosts, build_time_seconds := 60
               production_rate := some 10, storage_capacity := none }
      else if l = 2 then
        some { level := 2
               costs := fun r => if r = ResourceType.wood then 50 else 0
               build_time_seconds := 60
               production_rate := none, storage_capacity := none }
      else none
    technology_prerequisites := fun _ => none }

/-- Input for claim C2: the spec's 50-wood / 10-per-hour scenario. -/
def inpC2 : GreedyInput :=
  { buildings := fun b =>
      if b = BuildingType.lumberjack then some lumberjackC2 else none
    initial_resources := fun _ => 0
    initial_levels := fun _ => 1
    target_levels := fun b =>
      if b = BuildingType.lumberjack then some 2 else none
    technologies := fun _ => none }

/-- Claim C3's building: keep level 2 is free, level 3 costs 50 food; there
is no farm, so the food shortfall is unresolvable. -/
def keepC3 : Building :=
  { max_level := 30
    levels := fun l =>
      if l = 2 then
        some { level := 2, costs := zeroCosts, build_time_seconds := 60
               production_rate := none, storage_capacity := none }
      else if l = 3 then
        some { level := 3
               costs := fun r => if r = ResourceType.food then 50 else 0
               build_time_seconds := 60
               production_rate := none, storage_capacity := none }
      else none
    technology_prerequisites := fun _ => none }

/-- Input for claim C3: target keep level 3, reachable only to level 2. -/
def inpC3 : GreedyInput :=
  { buildings := fun b => if b = BuildingType.keep then some keepC3 else none
    initial_resources := fun _ => 0
    initial_levels := fun _ => 1
    target_levels := fun b => if b = BuildingType.keep then some 3 else none
    technologies := fun _ => none }

/-- Claim C5's farm: its level 1 carries a production rate of 10/hour, which
`_calculate_production_rates` maps to the food resource. -/
def farmC5 : Building :=
  { max_level := 30
    levels := fun l =>
      if l = 1 then
        some { level := 1, costs := zeroCosts, build_time_seconds := 60
               production_rate := some 10, storage_capacity := none }
      else none
    technology_prerequisites := fun _ => none }

/-- Input for claim C5's counterexample. -/
def inpC5 : GreedyInput :=
  { buildings := fun b => if b = BuildingType.farm then some farmC5 else none
    initial_resources := fun _ => 0
    initial_levels := fun _ => 1
    target_levels := fun _ => none
    technologies := fun _ => none }

/-- Claim C7's input: like C1 but the required technology `techB` takes
7200 s, so its research action ends long after the lone building action. -/
def keepC7 : Building :=
  { max_level := 30
    levels := fun l =>
      if l = 2 then
        some { level := 2, costs := zeroCosts, build_time_seconds := 60
               production_rate := none, storage_capacity := none }
      else none
    technology_prerequisites := fun l =>
      if l = 2 then some ("techB") else none }

/-- Input for claim C7's counterexample. -/
def inpC7 : GreedyInput :=
  { buildings := fun b => if b = BuildingType.keep then some keepC7 else none
    initial_resources := fun _ => 0
    initial_levels := fun _ => 1
    target_levels := fun b => if b = BuildingType.keep then some 2 else none
    technologies := fun n =>
      if n = "techB" then
        some { name := "techB", required_library_level := 1
               costs := zeroCosts, research_time_seconds := 7200 }
      else none }

/-- An input with no targets at all (used as the C7 witness instance). -/
def inpEmpty : GreedyInput :=
  { buildings := fun _ => none
    initial_resources := fun _ => 0
    initial_levels := fun _ => 1
    target_levels := fun _ => none
    technologies := fun _ => none }

/-- An input whose single target is already satisfied (C9 witness). -/
def inpC9w : GreedyInput :=
  { buildings := fun _ => none
    initial_resources := fun _ => 0
    initial_levels := fun _ => 1
    target_levels := fun b =>
      if b = BuildingType.lumberjack then some 1 else none
    technologies := fun _ => none }

/-- A concrete simulation state with positive wood production (C4 witness). -/
def exState4 : SimState :=
  { time_minutes := 0
    resources := fun _ => 0
    building_levels := fun _ => 1
    production_rates := fun r => if r = ResourceType.wood then 10 else 0
    storage_caps := fun _ => 999999
    building_queue_free_at := 0
    research_queue_free_at := 0
    completed_actions := []
    research_actions := []
    researched_technologies := [] }

/-- A concrete simulation state with zero food production and food stock 30
(C5 witness). -/
def exState5 : SimState :=
  { time_minutes := 0
    resources := fun r => if r = ResourceType.food then 30 else 0
    building_levels := fun _ => 1
    production_rates := fun _ => 0
    storage_caps := fun r => if r = ResourceType.food then 40 else 999999
    building_queue_free_at := 0
    research_queue_free_at := 0
    completed_actions := []
    research_actions := []
    researched_technologies := [] }

/-- A game state holding only 5 wood (C6 counterexample). -/
def exSpendState : MGameState :=
  ⟨fun r => if r = ResourceType.wood then some 5 else none⟩

/-- A cost of 10 wood — unaffordable for `exSpendState`. -/
def exSpendCosts : List (ResourceType × ℤ) := [(ResourceType.wood, 10)]

/-- A game state holding 10 wood (C6 witness). -/
def exAffordState : MGameState :=
  ⟨fun r => if r = ResourceType.wood then some 10 else none⟩

/-- A cost of 5 wood — affordable for `exAffordState`. -/
def exAffordCosts : List (ResourceType × ℤ) := [(ResourceType.wood, 5)]

/-- A game state with an empty resource map (C10 witness). -/
def exEmptyState : MGameState := ⟨fun _ => none⟩

/-- A positive cost in a kind absent from `exEmptyState` (C10 witness). -/
def exAbsentCosts : List (ResourceType × ℤ) := [(ResourceType.wood, 3)]

/-- Loop invariant of the greedy simulation: each queue's recorded actions
are chained end-to-start and bounded by that queue's busy-until timestamp,
building actions end no later than the current time, busy-until timestamps
are zero while the corresponding action list is empty, and no time elapses
before the first action is recorded. -/
structure SimInv (s : SimState) : Prop where
  chainB : s.completed_actions.Pairwise fun a b => a.end_time ≤ b.start_time
  boundB : ∀ a ∈ s.completed_actions,
    a.end_time ≤ s.building_queue_free_at * 60
  chainR : s.research_actions.Pairwise fun a b => a.end_time ≤ b.start_time
  boundR : ∀ a ∈ s.research_actions,
    a.end_time ≤ s.research_queue_free_at * 60
  timeB : ∀ a ∈ s.completed_actions, a.end_time ≤ s.time_minutes * 60
  emptyB : s.completed_actions = [] → s.building_queue_free_at = 0
  emptyR : s.research_actions = [] → s.research_queue_free_at = 0
  emptyT : s.completed_actions = [] → s.research_actions = [] →
    s.time_minutes = 0

end SolverLnk

namespace SolverLnk

/-! ### Helper lemmas about the greedy simulation -/

theorem advanceTime_completed_actions (s : SimState) (m : ℕ) :
    (advanceTime s m).completed_actions = s.completed_actions := rfl

theorem advanceTime_research_actions (s : SimState) (m : ℕ) :
    (advanceTime s m).research_actions = s.research_actions := rfl

theorem advanceTime_bq (s : SimState) (m : ℕ) :
    (advanceTime s m).building_queue_free_at = s.building_queue_free_at := rfl

theorem advanceTime_rq (s : SimState) (m : ℕ) :
    (advanceTime s m).research_queue_free_at = s.research_queue_free_at := rfl

theorem advanceTime_time (s : SimState) (m : ℕ) :
    (advanceTime s m).time_minutes = s.time_minutes + m := rfl

theorem simInv_advanceTime {s : SimState} {m : ℕ} (h : SimInv s)
    (hm : s.completed_actions = [] → s.research_actions = [] → m = 0) :
    SimInv (advanceTime s m) where
  chainB := h.chainB
  boundB := h.boundB
  chainR := h.chainR
  boundR := h.boundR
  timeB := fun a ha => le_trans (h.timeB a ha)
    (Nat.mul_le_mul_right 60 (Nat.le_add_right _ _))
  emptyB := h.emptyB
  emptyR := h.emptyR
  emptyT := fun hB hR => by
    have := h.emptyT hB hR
    have := hm hB hR
    simp [advanceTime_time]
    omega

theorem simInv_topAdvance {s : SimState} (h : SimInv s) :
    SimInv (topAdvance s) := by
  unfold topAdvance
  split
  · next hlt =>
    refine simInv_advanceTime h fun hB hR => ?_
    have := h.emptyB hB
    omega
  · exact h

theorem topAdvance_bq_le_time (s : SimState) :
    (topAdvance s).building_queue_free_at ≤ (topAdvance s).time_minutes := by
  unfold topAdvance
  split
  · next hlt => simp [advanceTime_bq, advanceTime_time]; omega
  · next hge => omega

theorem simInv_rqAdvance {s : SimState} (h : SimInv s) :
    SimInv (rqAdvance s) := by
  unfold rqAdvance
  split
  · next hlt =>
    refine simInv_advanceTime h fun hB hR => ?_
    have := h.emptyR hR
    omega
  · exact h

theorem rqAdvance_rq_le_time (s : SimState) :
    (rqAdvance s).research_queue_free_at ≤ (rqAdvance s).time_minutes := by
  unfold rqAdvance
  split
  · next hlt => simp [advanceTime_rq, advanceTime_time]; omega
  · next hge => omega

theorem updateProductionRates_completed_actions (s : SimState) (b : Building)
    (bt : BuildingType) (tl tg : ℕ) :
    (updateProductionRates s b bt tl tg).completed_actions =
      s.completed_actions := by
  unfold updateProductionRates; split <;> rfl

theorem updateProductionRates_research_actions (s : SimState) (b : Building)
    (bt : BuildingType) (tl tg : ℕ) :
    (updateProductionRates s b bt tl tg).research_actions =
      s.research_actions := by
  unfold updateProductionRates; split <;> rfl

theorem updateProductionRates_time (s : SimState) (b : Building)
    (bt : BuildingType) (tl tg : ℕ) :
    (updateProductionRates s b bt tl tg).time_minutes = s.time_minutes := by
  unfold updateProductionRates; split <;> rfl

theorem updateProductionRates_bq (s : SimState) (b : Building)
    (bt : BuildingType) (tl tg : ℕ) :
    (updateProductionRates s b bt tl tg).building_queue_free_at =
      s.building_queue_free_at := by
  unfold updateProductionRates; split <;> rfl

theorem updateProductionRates_rq (s : SimState) (b : Building)
    (bt : BuildingType) (tl tg : ℕ) :
    (updateProductionRates s b bt tl tg).research_queue_free_at =
      s.research_queue_free_at := by
  unfold updateProductionRates; split <;> rfl

theorem updateStorageCaps_completed_actions (s : SimState) (b : Building)
    (bt : BuildingType) (tl : ℕ) :
    (updateStorageCaps s b bt tl).completed_actions = s.completed_actions := by
  unfold updateStorageCaps; split <;> rfl

theorem updateStorageCaps_research_actions (s : SimState) (b : Building)
    (bt : BuildingType) (tl : ℕ) :
    (updateStorageCaps s b bt tl).research_actions = s.research_actions := by
  unfold updateStorageCaps; split <;> rfl

theorem updateStorageCaps_time (s : SimState) (b : Building)
    (bt : BuildingType) (tl : ℕ) :
    (updateStorageCaps s b bt tl).time_minutes = s.time_minutes := by
  unfold updateStorageCaps; split <;> rfl

theorem updateStorageCaps_bq (s : SimState) (b : Building)
    (bt : BuildingType) (tl : ℕ) :
    (updateStorageCaps s b bt tl).building_queue_free_at =
      s.building_queue_free_at := by
  unfold updateStorageCaps; split <;> rfl

theorem updateStorageCaps_rq (s : SimState) (b : Building)
    (bt : BuildingType) (tl : ℕ) :
    (updateStorageCaps s b bt tl).research_queue_free_at =
      s.research_queue_free_at := by
  unfold updateStorageCaps; split <;> rfl

theorem performUpgrade_completed_actions (s : SimState) (b : Building)
    (bt : BuildingType) (f t tg : ℕ) (ld : BuildingLevel) :
    (performUpgrade s b bt f t tg ld).completed_actions =
      s.completed_actions ++
        [{ building_type := bt, from_level := f, to_level := t
           start_time := s.time_minutes * 60
           end_time := (s.time_minutes + max 1 (ld.build_time_seconds / 60)) * 60
           costs := ld.costs }] := by
  unfold performUpgrade
  simp [updateStorageCaps_completed_actions, updateStorageCaps_time,
    updateProductionRates_completed_actions, updateProductionRates_time,
    advanceTime_completed_actions, advanceTime_time]

theorem performUpgrade_research_actions (s : SimState) (b : Building)
    (bt : BuildingType) (f t tg : ℕ) (ld : BuildingLevel) :
    (performUpgrade s b bt f t tg ld).research_actions =
      s.research_actions := by
  unfold performUpgrade
  simp [updateStorageCaps_research_actions,
    updateProductionRates_research_actions, advanceTime_research_actions]

theorem performUpgrade_time (s : SimState) (b : Building)
    (bt : BuildingType) (f t tg : ℕ) (ld : BuildingLevel) :
    (performUpgrade s b bt f t tg ld).time_minutes =
      s.time_minutes + max 1 (ld.build_time_seconds / 60) := by
  unfold performUpgrade
  simp [updateStorageCaps_time, updateProductionRates_time, advanceTime_time]

theorem performUpgrade_bq (s : SimState) (b : Building)
    (bt : BuildingType) (f t tg : ℕ) (ld : BuildingLevel) :
    (performUpgrade s b bt f t tg ld).building_queue_free_at =
      s.time_minutes + max 1 (ld.build_time_seconds / 60) := by
  unfold performUpgrade
  simp [updateStorageCaps_bq, updateProductionRates_bq, advanceTime_bq]

theorem performUpgrade_rq (s : SimState) (b : Building)
    (bt : BuildingType) (f t tg : ℕ) (ld : BuildingLevel) :
    (performUpgrade s b bt f t tg ld).research_queue_free_at =
      s.research_queue_free_at := by
  unfold performUpgrade
  simp [updateStorageCaps_rq, updateProductionRates_rq, advanceTime_rq]

theorem simInv_performUpgrade {s : SimState} {b : Building}
    {bt : BuildingType} {f t tg : ℕ} {ld : BuildingLevel}
    (h1 : s.completed_actions.Pairwise fun a b => a.end_time ≤ b.start_time)
    (h2 : ∀ a ∈ s.completed_actions,
      a.end_time ≤ s.building_queue_free_at * 60)
    (h3 : s.building_queue_free_at ≤ s.time_minutes)
    (h4 : s.research_actions.Pairwise fun a b => a.end_time ≤ b.start_time)
    (h5 : ∀ a ∈ s.research_actions,
      a.end_time ≤ s.research_queue_free_at * 60)
    (h6 : s.research_actions = [] → s.research_queue_free_at = 0) :
    SimInv (performUpgrade s b bt f t tg ld) := by
  have hend : ∀ a ∈ s.completed_actions, a.end_time ≤ s.time_minutes * 60 :=
    fun a ha => le_trans (h2 a ha) (Nat.mul_le_mul_right 60 h3)
  constructor
  · rw [performUpgrade_completed_actions]
    refine List.pairwise_append.mpr ⟨h1, List.pairwise_singleton _ _, ?_⟩
    intro a ha b hb
    simp only [List.mem_singleton] at hb
    subst hb
    exact hend a ha
  · rw [performUpgrade_completed_actions, performUpgrade_bq]
    intro a ha
    rcases List.mem_append.mp ha with ha | ha
    · exact le_trans (hend a ha)
        (Nat.mul_le_mul_right 60 (Nat.le_add_right _ _))
    · simp only [List.mem_singleton] at ha
      subst ha
      simp
  · rw [performUpgrade_research_actions]; exact h4
  · rw [performUpgrade_research_actions, performUpgrade_rq]; exact h5
  · rw [performUpgrade_completed_actions, performUpgrade_time]
    intro a ha
    rcases List.mem_append.mp ha with ha | ha
    · exact le_trans (hend a ha)
        (Nat.mul_le_mul_right 60 (Nat.le_add_right _ _))
    · simp only [List.mem_singleton] at ha
      subst ha
      simp
  · rw [performUpgrade_completed_actions]
    intro hB
    exact absurd hB (by simp)
  · rw [performUpgrade_research_actions, performUpgrade_rq]; exact h6
  · rw [performUpgrade_completed_actions]
    intro hB
    exact absurd hB (by simp)

theorem researchRecord_completed_actions (s : SimState) (tn : String)
    (tech : Technology) (lib : ℕ) :
    (researchRecord s tn tech lib).completed_actions =
      s.completed_actions := rfl

theorem researchRecord_research_actions (s : SimState) (tn : String)
    (tech : Technology) (lib : ℕ) :
    (researchRecord s tn tech lib).research_actions =
      s.research_actions ++
        [{ from_level := lib, to_level := lib
           start_time := s.time_minutes * 60
           end_time := (s.time_minutes + max 1 (tech.research_time_seconds / 60)) * 60
           costs := tech.costs
           technologies_unlocked := [tn] }] := rfl

theorem researchRecord_time (s : SimState) (tn : String)
    (tech : Technology) (lib : ℕ) :
    (researchRecord s tn tech lib).time_minutes = s.time_minutes := rfl

theorem researchRecord_bq (s : SimState) (tn : String)
    (tech : Technology) (lib : ℕ) :
    (researchRecord s tn tech lib).building_queue_free_at =
      s.building_queue_free_at := rfl

theorem researchRecord_rq (s : SimState) (tn : String)
    (tech : Technology) (lib : ℕ) :
    (researchRecord s tn tech lib).research_queue_free_at =
      s.time_minutes + max 1 (tech.research_time_seconds / 60) := rfl

theorem simInv_researchRecord {s : SimState} {tn : String}
    {tech : Technology} {lib : ℕ}
    (h1 : s.completed_actions.Pairwise fun a b => a.end_time ≤ b.start_time)
    (h2 : ∀ a ∈ s.completed_actions,
      a.end_time ≤ s.building_queue_free_at * 60)
    (h4 : s.research_actions.Pairwise fun a b => a.end_time ≤ b.start_time)
    (h5 : ∀ a ∈ s.research_actions,
      a.end_time ≤ s.research_queue_free_at * 60)
    (h7 : s.research_queue_free_at ≤ s.time_minutes)
    (h8 : ∀ a ∈ s.completed_actions, a.end_time ≤ s.time_minutes * 60)
    (h9 : s.completed_actions = [] → s.building_queue_free_at = 0) :
    SimInv (researchRecord s tn tech lib) := by
  have hend : ∀ a ∈ s.research_actions, a.end_time ≤ s.time_minutes * 60 :=
    fun a ha => le_trans (h5 a ha) (Nat.mul_le_mul_right 60 h7)
  constructor
  · rw [researchRecord_completed_actions]; exact h1
  · rw [researchRecord_completed_actions, researchRecord_bq]; exact h2
  · rw [researchRecord_research_actions]
    refine List.pairwise_append.mpr ⟨h4, List.pairwise_singleton _ _, ?_⟩
    intro a ha b hb
    simp only [List.mem_singleton] at hb
    subst hb
    exact hend a ha
  · rw [researchRecord_research_actions, researchRecord_rq]
    intro a ha
    rcases List.mem_append.mp ha with ha | ha
    · exact le_trans (hend a ha)
        (Nat.mul_le_mul_right 60 (Nat.le_add_right _ _))
    · simp only [List.mem_singleton] at ha
      subst ha
      simp
  · rw [researchRecord_completed_actions, researchRecord_time]; exact h8
  · rw [researchRecord_completed_actions, researchRecord_bq]; exact h9
  · rw [researchRecord_research_actions]
    intro hR
    exact absurd hR (by simp)
  · rw [researchRecord_research_actions]
    intro _ hR
    exact absurd hR (by simp)

theorem simInv_scheduleResearch (inp : GreedyInput) {s : SimState}
    (tn : String) (queue : List QEntry) (h : SimInv s) :
    SimInv (scheduleResearch inp s tn queue).1 := by
  unfold scheduleResearch
  cases htech : inp.technologies tn with
  | none => exact h
  | some tech =>
    simp only
    split
    · exact h
    · have hw : SimInv (rqAdvance s) := simInv_rqAdvance h
      have hrq := rqAdvance_rq_le_time s
      split
      · split
        · exact hw
        · exact hw
      · split
        · exact hw
        · split
          · next haff =>
            refine simInv_researchRecord ?_ ?_ ?_ ?_ ?_ ?_ ?_
            · rw [advanceTime_completed_actions]; exact hw.chainB
            · rw [advanceTime_completed_actions, advanceTime_bq]
              exact hw.boundB
            · rw [advanceTime_research_actions]; exact hw.chainR
            · rw [advanceTime_research_actions, advanceTime_rq]
              exact hw.boundR
            · rw [advanceTime_rq, advanceTime_time]
              exact le_trans hrq (Nat.le_add_right _ _)
            · rw [advanceTime_completed_actions, advanceTime_time]
              intro a ha
              exact le_trans (hw.timeB a ha)
                (Nat.mul_le_mul_right 60 (Nat.le_add_right _ _))
            · rw [advanceTime_completed_actions, advanceTime_bq]
              exact hw.emptyB
          · next haff =>
            exact simInv_researchRecord hw.chainB hw.boundB hw.chainR
              hw.boundR hrq hw.timeB hw.emptyB

theorem simInv_buildPhase (inp : GreedyInput) {s : SimState}
    (building : Building) (btype : BuildingType) (cur tg : ℕ)
    (ld : BuildingLevel) (queue : List QEntry) (idx : ℕ)
    (h : SimInv s) (h3 : s.building_queue_free_at ≤ s.time_minutes) :
    SimInv (buildPhase inp s building btype cur tg ld queue idx).state := by
  unfold buildPhase
  dsimp only
  split
  · split
    · exact h
    · exact h
  · split
    · exact h
    · have key : ∀ s2 : SimState,
          s2.completed_actions = s.completed_actions →
          s2.research_actions = s.research_actions →
          s2.building_queue_free_at = s.building_queue_free_at →
          s2.research_queue_free_at = s.research_queue_free_at →
          s.time_minutes ≤ s2.time_minutes →
          SimInv (performUpgrade s2 building btype cur (cur + 1) tg ld) := by
        intro s2 e1 e2 e3 e4 e5
        refine simInv_performUpgrade ?_ ?_ ?_ ?_ ?_ ?_
        · rw [e1]; exact h.chainB
        · rw [e1, e3]; exact h.boundB
        · rw [e3]; omega
        · rw [e2]; exact h.chainR
        · rw [e2, e4]; exact h.boundR
        · rw [e2, e4]; exact h.emptyR
      split <;> split
      · next => exact key _ rfl rfl rfl rfl (Nat.le_add_right _ _)
      · next => exact key _ rfl rfl rfl rfl (Nat.le_add_right _ _)
      · next => exact key _ rfl rfl rfl rfl le_rfl
      · next => exact key _ rfl rfl rfl rfl le_rfl

theorem simInv_solveStep (inp : GreedyInput) {s : SimState}
    (queue : List QEntry) (h : SimInv s) :
    SimInv (solveStep inp s queue).state := by
  unfold solveStep
  dsimp only
  have h0 : SimInv (topAdvance s) := simInv_topAdvance h
  have h3 := topAdvance_bq_le_time s
  cases hsel : selectNextUpgrade (topAdvance s) queue with
  | none => simp only [hsel]; exact h0
  | some sel =>
    simp only [hsel]
    split
    · exact h0
    · cases hb : inp.buildings sel.1 with
      | none => exact h0
      | some building =>
        dsimp only
        cases hl : building.levels ((topAdvance s).building_levels sel.1 + 1) with
        | none => exact h0
        | some ld =>
          dsimp only
          cases ht : checkTechPrereq (topAdvance s) building
              ((topAdvance s).building_levels sel.1 + 1) with
          | some tech => exact simInv_scheduleResearch inp tech queue h0
          | none =>
            exact simInv_buildPhase inp building sel.1 _ _ ld queue sel.2.2 h0 h3

theorem simInv_solveLoop (inp : GreedyInput) :
    ∀ (fuel : ℕ) (s : SimState) (queue : List QEntry),
      SimInv s → SimInv (solveLoop inp fuel s queue)
  | 0, s, _, h => h
  | fuel + 1, s, queue, h => by
    unfold solveLoop
    split
    · exact h
    · cases hstep : solveStep inp s queue with
      | stop s1 =>
        have hs := simInv_solveStep inp queue h
        rw [hstep] at hs
        exact hs
      | next s1 q1 =>
        have hs := simInv_solveStep inp queue h
        rw [hstep] at hs
        exact simInv_solveLoop inp fuel s1 q1 hs

theorem simInv_initState (inp : GreedyInput) : SimInv (initState inp) := by
  constructor <;> simp [initState]

theorem simInv_greedy (inp : GreedyInput) (fuel : ℕ) :
    SimInv (solveLoop inp fuel (initState inp) (createPrioritizedQueue inp)) :=
  simInv_solveLoop inp fuel _ _ (simInv_initState inp)

/-! ### The priority queue only contains entries below their targets -/

theorem mem_entriesForLevel {targets : BuildingType → Option ℕ}
    {bs : List BuildingType} {level : ℕ} {b : BuildingType} {l : ℕ}
    (hm : (b, l) ∈ entriesForLevel targets bs level) :
    ∃ t, targets b = some t ∧ l ≤ t := by
  simp only [entriesForLevel, List.mem_filterMap] at hm
  obtain ⟨b0, _, hmap⟩ := hm
  cases ht : targets b0 with
  | none => rw [ht] at hmap; simp at hmap
  | some t =>
    rw [ht] at hmap
    dsimp only at hmap
    by_cases hle : level ≤ t
    · rw [if_pos hle] at hmap
      have h1 := Option.some.inj hmap
      have hb : b0 = b := congrArg Prod.fst h1
      have hl : level = l := congrArg Prod.snd h1
      subst hb
      subst hl
      exact ⟨t, ht, hle⟩
    · rw [if_neg hle] at hmap
      simp at hmap

theorem mem_foldr_entries {targets : BuildingType → Option ℕ}
    {bs : List BuildingType} {b : BuildingType} {l : ℕ} :
    ∀ L : List ℕ,
      (b, l) ∈ L.foldr
        (fun level acc => entriesForLevel targets bs level ++ acc) [] →
      ∃ level, (b, l) ∈ entriesForLevel targets bs level
  | [], h => by simp at h
  | lv :: rest, h => by
    simp only [List.foldr_cons, List.mem_append] at h
    rcases h with h | h
    · exact ⟨lv, h⟩
    · exact mem_foldr_entries rest h

theorem mem_interleaved {targets : BuildingType → Option ℕ}
    {bs : List BuildingType} {maxL : ℕ} {b : BuildingType} {l : ℕ}
    (hm : (b, l) ∈ interleaved targets bs maxL) :
    ∃ t, targets b = some t ∧ l ≤ t := by
  obtain ⟨lev, hmem⟩ := mem_foldr_entries _ hm
  exact mem_entriesForLevel hmem

theorem mem_levelsFor {targets : BuildingType → Option ℕ}
    {b0 b : BuildingType} {l : ℕ} (hm : (b, l) ∈ levelsFor targets b0) :
    ∃ t, targets b = some t ∧ l ≤ t := by
  unfold levelsFor at hm
  cases ht : targets b0 with
  | none => rw [ht] at hm; simp at hm
  | some t =>
    rw [ht] at hm
    simp only [List.mem_map] at hm
    obtain ⟨lv, hlv, heq⟩ := hm
    have hb : b0 = b := congrArg Prod.fst heq
    have hl : lv = l := congrArg Prod.snd heq
    subst hb
    subst hl
    rw [List.mem_range'_1] at hlv
    exact ⟨t, ht, by omega⟩

theorem mem_createPrioritizedQueue {inp : GreedyInput} {b : BuildingType}
    {l : ℕ} (hm : (b, l) ∈ createPrioritizedQueue inp) :
    ∃ t, inp.target_levels b = some t ∧ l ≤ t := by
  simp only [createPrioritizedQueue, List.mem_append] at hm
  rcases hm with ((((((((h | h) | h) | h) | h) | h) | h) | h) | h)
  · exact mem_interleaved h
  · exact mem_interleaved h
  · exact mem_levelsFor h
  · exact mem_levelsFor h
  · exact mem_levelsFor h
  · exact mem_levelsFor h
  · exact mem_levelsFor h
  · exact mem_levelsFor h
  · exact mem_levelsFor h

theorem findFirstValid_none {s : SimState} :
    ∀ (q : List QEntry) (i : ℕ),
      (∀ e ∈ q, ¬s.building_levels e.1 < e.2) → findFirstValid s q i = none
  | [], _, _ => rfl
  | (b, t) :: rest, i, h => by
    unfold findFirstValid
    rw [if_neg (h (b, t) (by simp))]
    exact findFirstValid_none rest (i + 1) fun e he => h e (by simp [he])

theorem selectNextUpgrade_none {s : SimState} {q : List QEntry}
    (h : ∀ e ∈ q, ¬s.building_levels e.1 < e.2) :
    selectNextUpgrade s q = none := by
  unfold selectNextUpgrade
  cases q with
  | nil => rfl
  | cons e rest =>
    cases e with
    | mk fb ft =>
      dsimp only
      rw [if_neg]
      · exact findFirstValid_none _ 0 h
      · intro hc
        exact h (fb, ft) (by simp) hc.2

/-! ### The `GameState.can_afford` characterization (helper) -/

theorem can_afford_iff (s : MGameState) (costs : List (ResourceType × ℤ)) :
    MGameState.can_afford s costs = true ↔
      ∀ p ∈ costs, ((p.2 : ℚ)) ≤ (s.resources p.1).getD 0 := by
  simp [MGameState.can_afford, List.all_eq_true]

/-! ### Claim theorems -/

/-- Claim C1: the spec requires that every building upgrade with a
technology prerequisite starts no earlier than the end of a research action
unlocking that technology.  The greedy scheduler marks a technology as
researched the moment its research is scheduled, and the building queue
never waits for the research queue, so on this input the keep's upgrade
runs during `techA`'s research: the upgrade starts at 0 s while the research
ends at 6000 s.  This theorem evaluates the scheduler at that failing
input. -/
theorem greedy_tech_gating_violated :
    (greedySolve inpC1 10).building_actions.map buildProj =
      [(BuildingType.keep, 1, 2, 0, 60)] ∧
    (greedySolve inpC1 10).research_actions.map researchProj =
      [(1, 1, 0, 6000, ["techA"])] ∧
    techPrereqOf inpC1 BuildingType.keep 2 = some ("techA") ∧
    techGatedB inpC1 (greedySolve inpC1 10) = false :=
  ⟨by decide, by decide, by decide, by decide⟩

/-- Claim C2 counterexample: on the spec's scenario (50 wood to reach
level 2, 10 wood/hour, initial wood 0) the greedy scheduler does not start
at 18000 s / end at 18060 s with total 18060: `_can_afford_or_wait_time`
rounds the 300-minute wait up to `int(hours*60)+1 = 301` minutes. -/
theorem greedy_scenario_counterexample :
    ¬((greedySolve inpC2 10).building_actions.map buildProj =
        [(BuildingType.lumberjack, 1, 2, 18000, 18060)] ∧
      (greedySolve inpC2 10).total_time_seconds = 18060) := by
  decide

/-- Claim C2 amended: on the spec's scenario the greedy scheduler returns a
single lumberjack 1→2 action with start 18060 s and end 18120 s and total
time 18120 s — one minute later than the claim, because the wait is
computed as `int(shortfall/rate*60) + 1` minutes even when the division is
exact. -/
theorem greedy_scenario_actual :
    (greedySolve inpC2 10).building_actions.map buildProj =
      [(BuildingType.lumberjack, 1, 2, 18060, 18120)] ∧
    (greedySolve inpC2 10).research_actions.map researchProj = [] ∧
    (greedySolve inpC2 10).total_time_seconds = 18120 :=
  ⟨by decide, by decide, by decide⟩

/-- Claim C3: the spec requires infeasibility ("no solution") when no
further progress is possible but targets are unmet; `GreedySolver.solve`
instead always returns a `Solution`.  On this input (keep target 3, level 3
costs 50 food, no farm) the loop upgrades the keep to level 2, then pops the
unpayable step and returns a `Solution` holding the partial progress, with
the keep still below its target. -/
theorem greedy_returns_incomplete_solution :
    inpC3.target_levels BuildingType.keep = some 3 ∧
    (greedySolve inpC3 10).building_actions.map buildProj =
      [(BuildingType.keep, 1, 2, 0, 60)] ∧
    (greedySolve inpC3 10).final_building_levels BuildingType.keep = 2 :=
  ⟨by decide, by decide, by decide⟩

/-- Claim C4: `_advance_time` increases elapsed time by the span and sets
each positively-producing kind's quantity to
`min (previous + rate * seconds/3600) capacity`, so the stored quantity
never exceeds the capacity afterwards.  (The greedy solver advances in
whole minutes; the span in seconds is `m * 60`.) -/
theorem advanceTime_clamps (s : SimState) (m : ℕ) (r : ResourceType)
    (hr : 0 < s.production_rates r) :
    (advanceTime s m).time_minutes * 60 = s.time_minutes * 60 + m * 60 ∧
    (advanceTime s m).resources r =
      min (s.resources r + s.production_rates r * ((m * 60 : ℕ) : ℚ) / 3600)
        ((s.storage_caps r : ℚ)) ∧
    (advanceTime s m).resources r ≤ ((s.storage_caps r : ℚ)) := by
  refine ⟨by rw [advanceTime_time]; ring, ?_, min_le_right _ _⟩
  show min (s.resources r + s.production_rates r * (m : ℚ) / 60)
      ((s.storage_caps r : ℚ)) = _
  have h1 : s.production_rates r * (m : ℚ) / 60 =
      s.production_rates r * ((m * 60 : ℕ) : ℚ) / 3600 := by
    push_cast
    ring
  rw [h1]

/-- Claim C4 witness at a concrete state with wood production 10/hour. -/
theorem advanceTime_clamps_witness :
    (0 : ℚ) < exState4.production_rates ResourceType.wood ∧
    (advanceTime exState4 60).resources ResourceType.wood ≤
      ((exState4.storage_caps ResourceType.wood : ℚ)) :=
  ⟨by decide, (advanceTime_clamps exState4 60 ResourceType.wood (by decide)).2.2⟩

/-- Claim C5 counterexample: the claim quantifies over every state, but
`_calculate_production_rates` maps the farm's `production_rate` to food, so
a catalog whose farm level has a production rate yields a state (here the
solver's own initial state for `inpC5`) in which an advance increases
food from 0 to 10. -/
theorem advance_food_increase_counterexample :
    (initState inpC5).production_rates ResourceType.food = 10 ∧
    (initState inpC5).resources ResourceType.food = 0 ∧
    (advanceTime (initState inpC5) 60).resources ResourceType.food = 10 ∧
    ¬((advanceTime (initState inpC5) 60).resources ResourceType.food ≤
        (initState inpC5).resources ResourceType.food) :=
  ⟨by decide, by decide, by decide, by decide⟩

/-- Claim C5 amended: whenever the state's food production rate is not
positive — which the greedy initialisation guarantees exactly when the
farm's current catalog level carries no production rate — an advance never
increases the stored food quantity. -/
theorem advance_food_monotone (s : SimState) (m : ℕ)
    (h : s.production_rates ResourceType.food ≤ 0) :
    (advanceTime s m).resources ResourceType.food ≤
      s.resources ResourceType.food := by
  have hm : (0 : ℚ) ≤ (m : ℚ) := Nat.cast_nonneg m
  have h2 : s.production_rates ResourceType.food * (m : ℚ) ≤ 0 :=
    mul_nonpos_iff.mpr (Or.inr ⟨h, hm⟩)
  have h3 : s.production_rates ResourceType.food * (m : ℚ) / 60 ≤ 0 := by
    apply div_nonpos_iff.mpr
    right
    exact ⟨h2, by norm_num⟩
  show min (s.resources ResourceType.food +
      s.production_rates ResourceType.food * (m : ℚ) / 60)
      ((s.storage_caps ResourceType.food : ℚ)) ≤ s.resources ResourceType.food
  have h4 := min_le_left (s.resources ResourceType.food +
    s.production_rates ResourceType.food * (m : ℚ) / 60)
    ((s.storage_caps ResourceType.food : ℚ))
  linarith

/-- Claim C5 witness at a concrete state with zero food production. -/
theorem advance_food_monotone_witness :
    exState5.production_rates ResourceType.food ≤ 0 ∧
    (advanceTime exState5 90).resources ResourceType.food ≤
      exState5.resources ResourceType.food :=
  ⟨by decide, advance_food_monotone exState5 90 (by decide)⟩

/-- Claim C6 counterexample: `GameState.spend_resources` contains no
assertion.  Called on a state that cannot afford the costs, it silently
succeeds and leaves a negative quantity (wood 5 − 10 = −5), rather than
failing. -/
theorem spend_unaffordable_silent :
    MGameState.can_afford exSpendState exSpendCosts = false ∧
    ((MGameState.spend_resources exSpendState exSpendCosts).map
      fun st => st.resources ResourceType.wood) = some (some (-5)) :=
  ⟨by decide, by decide⟩

/-- Claim C6 amended: `spend_resources` performs no affordability check
(an unaffordable call is a silent state change, not an assertion failure);
under the `can_afford` precondition — with the cost kinds distinct, as in a
Python dict, and all stored quantities non-negative — no stored quantity
becomes negative after spending. -/
theorem spend_nonneg_under_precondition :
    ∀ (costs : List (ResourceType × ℤ)) (s : MGameState),
      (costs.map Prod.fst).Nodup →
      MGameState.can_afford s costs = true →
      (∀ r q, s.resources r = some q → 0 ≤ q) →
      ∀ r q, ((MGameState.spend_resources s costs).bind
        fun st => st.resources r) = some q → 0 ≤ q
  | [], s, _, _, hpos, r, q, hq => by
    simp only [MGameState.spend_resources, Option.some_bind] at hq
    exact hpos r q hq
  | (r0, c0) :: rest, s, hnd, hca, hpos, r, q, hq => by
    simp only [MGameState.spend_resources] at hq
    cases h0 : s.resources r0 with
    | none => rw [h0] at hq; simp at hq
    | some q0 =>
      rw [h0] at hq
      have hall := (can_afford_iff _ _).mp hca
      have hca0 : (c0 : ℚ) ≤ q0 := by
        have := hall (r0, c0) (by simp)
        rw [h0] at this
        simpa using this
      have hcarest : MGameState.can_afford
          ⟨Function.update s.resources r0 (some (q0 - (c0 : ℚ)))⟩ rest = true := by
        rw [can_afford_iff]
        intro p hp
        have hne : p.1 ≠ r0 := by
          intro he
          have hmem : p.1 ∈ rest.map Prod.fst := List.mem_map_of_mem _ hp
          rw [he] at hmem
          exact (List.nodup_cons.mp hnd).1 hmem
        show ((p.2 : ℚ)) ≤
          ((Function.update s.resources r0 (some (q0 - (c0 : ℚ)))) p.1).getD 0
        rw [Function.update_noteq hne]
        exact hall p (List.mem_cons_of_mem _ hp)
      have hposrest : ∀ r1 q1,
          (Function.update s.resources r0 (some (q0 - (c0 : ℚ)))) r1 = some q1 →
            0 ≤ q1 := by
        intro r1 q1 h1
        by_cases he : r1 = r0
        · subst he
          rw [Function.update_same] at h1
          have hq1 : q1 = q0 - (c0 : ℚ) := (Option.some.inj h1).symm
          rw [hq1]
          linarith
        · rw [Function.update_noteq he] at h1
          exact hpos r1 q1 h1
      exact spend_nonneg_under_precondition rest _
        (List.nodup_cons.mp hnd).2 hcarest hposrest r q hq

/-- Claim C6 witness: an affordable spend (10 wood, cost 5) leaves a
non-negative quantity. -/
theorem spend_nonneg_witness :
    MGameState.can_afford exAffordState exAffordCosts = true ∧ (0 : ℚ) ≤ 5 :=
  ⟨by decide,
    spend_nonneg_under_precondition exAffordCosts exAffordState (by decide)
      (by decide)
      (fun r q hq => by
        cases r <;> simp [exAffordState] at hq <;> simp [← hq])
      ResourceType.wood 5 (by decide)⟩

/-- Claim C7 counterexample: on `inpC7` the greedy scheduler's
`total_time_seconds` is the final elapsed time, 60 s, while the research
action unlocking `techB` ends at 7200 s, so the total is not the maximum
end time over both action lists. -/
theorem greedy_total_time_ne_max_end :
    (greedySolve inpC7 10).total_time_seconds = 60 ∧
    maxEndTime (greedySolve inpC7 10) = 7200 ∧
    (greedySolve inpC7 10).total_time_seconds ≠
      maxEndTime (greedySolve inpC7 10) :=
  ⟨by decide, by decide, by decide⟩

/-- Claim C7 amended: for the greedy scheduler, `total_time_seconds` is the
final elapsed simulation time: it is an upper bound on every
`BuildingUpgradeAction`'s end time and is 0 whenever both action lists are
empty, but it need not equal the maximum end time over both lists (a
research action can end after it). -/
theorem greedy_total_time_bounds (inp : GreedyInput) (fuel : ℕ) :
    (∀ a ∈ (greedySolve inp fuel).building_actions,
      a.end_time ≤ (greedySolve inp fuel).total_time_seconds) ∧
    ((greedySolve inp fuel).building_actions = [] →
      (greedySolve inp fuel).research_actions = [] →
      (greedySolve inp fuel).total_time_seconds = 0) := by
  have h := simInv_greedy inp fuel
  constructor
  · intro a ha
    exact h.timeB a ha
  · intro hB hR
    have ht := h.emptyT hB hR
    show (solveLoop inp fuel (initState inp)
      (createPrioritizedQueue inp)).time_minutes * 60 = 0
    rw [ht]

/-- Claim C7 witness: at the empty-target input both lists are empty and
the total time is 0. -/
theorem greedy_total_time_bounds_witness :
    (greedySolve inpEmpty 3).total_time_seconds = 0 :=
  (greedy_total_time_bounds inpEmpty 3).2 rfl rfl

/-- Claim C8: in every greedy solution the building actions' `[start, end)`
intervals are pairwise disjoint, and so are the research actions'
intervals: each queue's actions are chained end-to-start, because an action
is only started once the simulation clock has passed the queue's busy-until
timestamp. -/
theorem greedy_queue_intervals_disjoint (inp : GreedyInput) (fuel : ℕ) :
    ((greedySolve inp fuel).building_actions.Pairwise fun a b =>
      a.end_time ≤ b.start_time ∨ b.end_time ≤ a.start_time) ∧
    ((greedySolve inp fuel).research_actions.Pairwise fun a b =>
      a.end_time ≤ b.start_time ∨ b.end_time ≤ a.start_time) := by
  have h := simInv_greedy inp fuel
  exact ⟨List.Pairwise.imp (fun hab => Or.inl hab) h.chainB,
    List.Pairwise.imp (fun hab => Or.inl hab) h.chainR⟩

/-- Claim C9: if every targeted building already meets its target level,
the greedy scheduler returns an empty solution with total time 0: every
queue entry is for a level at most its building's target, so
`_select_next_upgrade` finds nothing and the loop exits immediately. -/
theorem greedy_idempotent_resolve (inp : GreedyInput) (fuel : ℕ)
    (h : ∀ b t, inp.target_levels b = some t → t ≤ inp.initial_levels b) :
    (greedySolve inp fuel).building_actions = [] ∧
    (greedySolve inp fuel).research_actions = [] ∧
    (greedySolve inp fuel).total_time_seconds = 0 := by
  have hq : ∀ e ∈ createPrioritizedQueue inp,
      ¬(initState inp).building_levels e.1 < e.2 := by
    intro e he
    obtain ⟨b1, l1⟩ := e
    obtain ⟨t, ht, hle⟩ := mem_createPrioritizedQueue he
    have := h b1 t ht
    show ¬inp.initial_levels b1 < l1
    omega
  have hta : topAdvance (initState inp) = initState inp := by
    unfold topAdvance
    rw [if_neg]
    show ¬(0 < 0)
    omega
  have hloop : solveLoop inp fuel (initState inp)
      (createPrioritizedQueue inp) = initState inp := by
    cases fuel with
    | zero => rfl
    | succ n =>
      show (if (createPrioritizedQueue inp).isEmpty then initState inp
        else match solveStep inp (initState inp) (createPrioritizedQueue inp) with
          | .stop s1 => s1
          | .next s1 q1 => solveLoop inp n s1 q1) = initState inp
      split
      · rfl
      · have hstep : solveStep inp (initState inp)
            (createPrioritizedQueue inp) = .stop (initState inp) := by
          unfold solveStep
          dsimp only
          rw [hta, selectNextUpgrade_none hq]
        rw [hstep]
  refine ⟨?_, ?_, ?_⟩
  · show (solveLoop inp fuel (initState inp)
      (createPrioritizedQueue inp)).completed_actions = []
    rw [hloop]
    rfl
  · show (solveLoop inp fuel (initState inp)
      (createPrioritizedQueue inp)).research_actions = []
    rw [hloop]
    rfl
  · show (solveLoop inp fuel (initState inp)
      (createPrioritizedQueue inp)).time_minutes * 60 = 0
    rw [hloop]
    rfl

/-- Claim C9 witness: a single already-satisfied target yields the empty
solution. -/
theorem greedy_idempotent_resolve_witness :
    (greedySolve inpC9w 5).building_actions = [] ∧
    (greedySolve inpC9w 5).research_actions = [] ∧
    (greedySolve inpC9w 5).total_time_seconds = 0 :=
  greedy_idempotent_resolve inpC9w 5 (by
    intro b t ht
    by_cases hb : b = BuildingType.lumberjack
    · subst hb
      simp [inpC9w] at ht
      simp [inpC9w]
      omega
    · simp [inpC9w, hb] at ht)

/-- Claim C10: `GameState.can_afford` is true exactly when, for every
(kind, cost) pair in the cost map, the stored quantity — 0 when the kind is
absent from the resource map — is at least the cost; in particular a
positive cost in an absent kind makes it false. -/
theorem can_afford_spec (s : MGameState) (costs : List (ResourceType × ℤ)) :
    (MGameState.can_afford s costs = true ↔
      ∀ p ∈ costs, ((p.2 : ℚ)) ≤ (s.resources p.1).getD 0) ∧
    (∀ r c, (r, c) ∈ costs → s.resources r = none → 0 < c →
      MGameState.can_afford s costs = false) := by
  refine ⟨can_afford_iff s costs, ?_⟩
  intro r c hmem habs hcpos
  cases hb : MGameState.can_afford s costs with
  | false => rfl
  | true =>
    have h2 := (can_afford_iff s costs).mp hb (r, c) hmem
    rw [habs] at h2
    simp only [Option.getD_none] at h2
    have h3 : (0 : ℚ) < (c : ℚ) := by exact_mod_cast hcpos
    linarith

/-- Claim C10 witness: a positive cost in a kind absent from the resource
map makes `can_afford` false. -/
theorem can_afford_spec_witness :
    MGameState.can_afford exEmptyState exAbsentCosts = false :=
  (can_afford_spec exEmptyState exAbsentCosts).2 ResourceType.wood 3
    (by decide) (by decide) (by decide)

end SolverLnk
